import Mathlib

/-
Formal model of the book-api Express service (users / authors REST API with
JWT authentication, knex/PostgreSQL store, and a uniform response envelope).

The definitions below are a shallow embedding of the JavaScript sources:
  - src/middleware/validate.js   (validate, authenticate)
  - src/routes/auth.js           (register, login, refresh-token)
  - src/routes/index.js          (users /me handlers)
  - src/routes/authors.js        (author CRUD, list with pagination, batch delete)
  - src/migrations/20250707151649_create_authors_table.js (authors email unique)
The store is modelled as in-memory lists of rows; store operations that can
violate the unique email constraint return an Except value, mirroring the
knex promise rejection that the handlers catch.
-/

/-- A JavaScript number restricted to the values this service can produce:
integers, positive/negative infinity and NaN (the latter two arise from
dividing by a zero limit in the pagination arithmetic). -/
inductive JSNum where
  | fin : Int → JSNum
  | posInf : JSNum
  | negInf : JSNum
  | nan : JSNum
deriving DecidableEq, Repr

/-- Whether a JavaScript number is finite. -/
def JSNum.isFinite : JSNum → Bool
  | .fin _ => true
  | _ => false

/-- JavaScript Math.ceil(total / limit) for the non-negative integers this
service feeds into the pagination computation.  Division by zero follows
IEEE-754 semantics: positive/0 gives Infinity and 0/0 gives NaN. -/
def jsCeilDiv (total limit : Nat) : JSNum :=
  if limit = 0 then
    if total = 0 then .nan else .posInf
  else
    .fin (Int.ofNat ((total + limit - 1) / limit))

/-- The payload carried inside a JWT minted by this service: jwt.sign is
called either with \x7b id, email \x7d (login) or with \x7b id \x7d (refresh exchange). -/
structure Claims where
  id : Nat
  email : Option String
deriving DecidableEq, Repr

/-- A signed JWT, abstracted as its payload, the secret it was signed with and
its absolute expiry time.  The encoding to a compact string is injective, so
tokens are kept symbolic. -/
structure Token where
  claims : Claims
  secret : String
  exp : Nat
deriving DecidableEq, Repr

/-- jwt.sign: bind the claims to a secret with an expiry `expiresIn` seconds
from now. -/
def jwtSign (c : Claims) (secret : String) (now expiresIn : Nat) : Token :=
  ⟨c, secret, now + expiresIn⟩

/-- jwt.verify: succeeds exactly when the token was signed with the given
secret and has not expired; returns the decoded claims. -/
def jwtVerify (t : Token) (secret : String) (now : Nat) : Option Claims :=
  if t.secret = secret ∧ now < t.exp then some t.claims else none

/-- The JSON values this service serializes into response bodies.  Signed
tokens appear in bodies as opaque strings; they are kept as a dedicated
constructor so that their (password-free) claim content stays visible. -/
inductive JsonVal where
  | null : JsonVal
  | bool : Bool → JsonVal
  | num : JSNum → JsonVal
  | str : String → JsonVal
  | tok : Token → JsonVal
  | arr : List JsonVal → JsonVal
  | obj : List (String × JsonVal) → JsonVal

/-- Shorthand for a finite integer JSON number. -/
def jint (n : Nat) : JsonVal := .num (.fin (Int.ofNat n))

/-- Field lookup in a JSON object field list (first occurrence wins, as in a
serialized JS object, whose keys are unique). -/
def lookupField (fs : List (String × JsonVal)) (k : String) : Option JsonVal :=
  match fs.find? (fun p => p.1 = k) with
  | some p => some p.2
  | none => none

/-- Field lookup on a JSON value: defined on objects only. -/
def JsonVal.lookup : JsonVal → String → Option JsonVal
  | .obj fs, k => lookupField fs k
  | _, _ => none

/-- JavaScript object spread-override semantics: writing key `k` into an
object keeps its position if the key exists and appends it otherwise. -/
def setField (fs : List (String × JsonVal)) (k : String) (v : JsonVal) : List (String × JsonVal) :=
  if fs.any (fun p => p.1 = k) then
    fs.map (fun p => if p.1 = k then (k, v) else p)
  else fs ++ [(k, v)]

/-- Modelled from the spec: the file src/types/response.js that exports the
base `responseFormat` object is absent from the sources (only its import
sites survive).  Per §4.3 of the spec and the README, it is the base envelope
spread into every handler response: success true, empty message, null data,
null errors, statusCode 200. -/
def responseFormat : List (String × JsonVal) :=
  [("success", .bool true), ("message", .str ""), ("data", .null),
   ("errors", .null), ("statusCode", jint 200)]

/-- A handler response literal of the form res.json( ...responseFormat with
the given overrides spread over it ). -/
def envelope (overrides : List (String × JsonVal)) : JsonVal :=
  .obj (overrides.foldl (fun fs kv => setField fs kv.1 kv.2) responseFormat)

/-- An HTTP response: status code and JSON body. -/
structure Response where
  status : Nat
  body : JsonVal

/-- The keys the §4.3 envelope may carry. -/
def envelopeKeys : List String :=
  ["success", "message", "data", "errors", "statusCode", "pagination"]

/-- The §4.3 `errors` field must be null, a string or an array. -/
def errorsShaped : Option JsonVal → Bool
  | some .null => true
  | some (.str _) => true
  | some (.arr _) => true
  | _ => false

/-- Decides whether a JSON value has the fixed §4.3 envelope shape:
success bool, message string, a data field, errors null/string/array,
statusCode int, and no key outside the envelope (pagination allowed). -/
def isEnvelope : JsonVal → Bool
  | .obj fs =>
    (match lookupField fs "success" with | some (.bool _) => true | _ => false) &&
    (match lookupField fs "message" with | some (.str _) => true | _ => false) &&
    (fs.any (fun p => p.1 = "data")) &&
    errorsShaped (lookupField fs "errors") &&
    (match lookupField fs "statusCode" with | some (.num (.fin _)) => true | _ => false) &&
    fs.all (fun p => envelopeKeys.contains p.1)
  | _ => false

mutual

/-- No object anywhere in this JSON value carries a "password" key.  A token
value is password-free by construction: its claims are an id and an optional
email. -/
def pwKeyFree : JsonVal → Bool
  | .null => true
  | .bool _ => true
  | .num _ => true
  | .str _ => true
  | .tok _ => true
  | .arr xs => pwKeyFreeArr xs
  | .obj fs => pwKeyFreeObj fs

/-- pwKeyFree over the elements of a JSON array. -/
def pwKeyFreeArr : List JsonVal → Bool
  | [] => true
  | x :: xs => pwKeyFree x && pwKeyFreeArr xs

/-- pwKeyFree over the fields of a JSON object. -/
def pwKeyFreeObj : List (String × JsonVal) → Bool
  | [] => true
  | (k, v) :: fs => (decide ¬(k = "password")) && pwKeyFree v && pwKeyFreeObj fs

end

example : jsCeilDiv 25 10 = .fin 3 := by decide
example : (jsCeilDiv 25 0).isFinite = false := by decide
example : isEnvelope (envelope [("statusCode", jint 404)]) = true := by rfl
example : pwKeyFree (envelope [("data", .obj [("id", jint 1)])]) = true := by rfl

/-- A row of the users table: id, username, unique email, bcrypt password
hash, timestamps. -/
structure UserRow where
  id : Nat
  username : String
  email : String
  password : String
  created_at : Nat
  updated_at : Nat
deriving DecidableEq, Repr

/-- A row of the authors table (migration 20250707151649): id, name, unique
email, optional bio, timestamps. -/
structure AuthorRow where
  id : Nat
  name : String
  email : String
  bio : Option String
  created_at : Nat
  updated_at : Nat
deriving DecidableEq, Repr

/-- The relational store backing the service. -/
structure Store where
  users : List UserRow
  authors : List AuthorRow
deriving DecidableEq, Repr

/-- An error surfaced by a rejected store operation; the handlers pass its
message through as the `errors` field of a 500 envelope. -/
structure DbError where
  message : String
deriving DecidableEq, Repr

/-- The PostgreSQL unique-violation error for the users email constraint. -/
def usersUniqueViolation : DbError :=
  ⟨"duplicate key value violates unique constraint \"users_email_unique\""⟩

/-- The PostgreSQL unique-violation error for the authors email constraint. -/
def authorsUniqueViolation : DbError :=
  ⟨"duplicate key value violates unique constraint \"authors_email_unique\""⟩

/-- Next value of the users id sequence (table.increments). -/
def nextUserId (st : Store) : Nat :=
  st.users.foldl (fun m u => Nat.max m u.id) 0 + 1

/-- Next value of the authors id sequence (table.increments). -/
def nextAuthorId (st : Store) : Nat :=
  st.authors.foldl (fun m a => Nat.max m a.id) 0 + 1

/-- INSERT INTO users: rejected when the unique email constraint is violated. -/
def insertUser (u : UserRow) (st : Store) : Except DbError Store :=
  if st.users.any (fun x => x.email = u.email) then .error usersUniqueViolation
  else .ok { st with users := st.users ++ [u] }

/-- INSERT INTO authors: rejected when the unique email constraint is
violated. -/
def insertAuthor (a : AuthorRow) (st : Store) : Except DbError Store :=
  if st.authors.any (fun x => x.email = a.email) then .error authorsUniqueViolation
  else .ok { st with authors := st.authors ++ [a] }

/-- UPDATE users SET username, email, updated_at WHERE id: rejected when
another user already holds the new email. -/
def updateUserRow (uid : Nat) (username email : String) (now : Nat) (st : Store) :
    Except DbError Store :=
  if st.users.any (fun x => decide (x.id ≠ uid) && decide (x.email = email)) then
    .error usersUniqueViolation
  else
    .ok { st with users := st.users.map (fun x =>
      if x.id = uid then { x with username := username, email := email, updated_at := now }
      else x) }

/-- UPDATE authors SET name, email, bio, updated_at WHERE id: rejected when
another author already holds the new email. -/
def updateAuthorRow (id : Nat) (name email : String) (bio : Option String) (now : Nat)
    (st : Store) : Except DbError Store :=
  if st.authors.any (fun x => decide (x.id ≠ id) && decide (x.email = email)) then
    .error authorsUniqueViolation
  else
    .ok { st with authors := st.authors.map (fun x =>
      if x.id = id then { x with name := name, email := email, bio := bio, updated_at := now }
      else x) }

/-- The public projection of a user row returned by the handlers: the
password column is never selected. -/
def userPublicJson (u : UserRow) : JsonVal :=
  .obj [("id", jint u.id), ("username", .str u.username), ("email", .str u.email),
        ("created_at", jint u.created_at), ("updated_at", jint u.updated_at)]

/-- The JSON serialization of an author row. -/
def authorJson (a : AuthorRow) : JsonVal :=
  .obj [("id", jint a.id), ("name", .str a.name), ("email", .str a.email),
        ("bio", match a.bio with | some b => .str b | none => .null),
        ("created_at", jint a.created_at), ("updated_at", jint a.updated_at)]

/-- A field-level violation reported by express-validator. -/
structure ValidationError where
  msg : String
  path : String
deriving DecidableEq, Repr

/-- The serialized form of one express-validator error object. -/
def validationErrorJson (e : ValidationError) : JsonVal :=
  .obj [("type", .str "field"), ("msg", .str e.msg),
        ("path", .str e.path), ("location", .str "body")]

/-- The 400 response emitted by the validate middleware when the rule checks
failed.  Its body is NOT built through responseFormat: it is a bare
status/message/errors object. -/
def validateFailResponse (errs : List ValidationError) : Response :=
  ⟨400, .obj [("status", .str "error"), ("message", .str "Validation failed"),
              ("errors", .arr (errs.map validationErrorJson))]⟩

/-- The validate middleware (src/middleware/validate.js): given the
express-validator results for the request, either fall through to the
handler (none) or short-circuit with the 400 error body (some). -/
def validate (errs : List ValidationError) : Option Response :=
  if errs.isEmpty then none else some (validateFailResponse errs)

/-- What the Authorization header of a request parses to: absent, present
but not a Bearer scheme, a Bearer scheme with an empty token part, or a
Bearer scheme carrying a token. -/
inductive BearerHeader where
  | missing : BearerHeader
  | malformed : String → BearerHeader
  | emptyToken : BearerHeader
  | bearer : Token → BearerHeader

/-- Outcome of the authenticate middleware: an early response, or control
passed to the handler with the decoded claims attached to the request. -/
inductive AuthOutcome where
  | reject : Response → AuthOutcome
  | proceed : Claims → AuthOutcome

/-- The 401 body for a missing or non-Bearer Authorization header.  A bare
object, not the envelope. -/
def authHeaderMissingResponse : Response :=
  ⟨401, .obj [("error", .str "Authorization header missing or malformed")]⟩

/-- The 401 body when the Bearer token part is empty.  A bare object. -/
def tokenMissingResponse : Response :=
  ⟨401, .obj [("error", .str "Access token not provided")]⟩

/-- The 403 body for a token that fails verification against the access
secret.  A bare object. -/
def invalidTokenResponse : Response :=
  ⟨403, .obj [("error", .str "Invalid or expired token")]⟩

/-- The authenticate middleware (second export of src/middleware files):
check the Authorization header and verify the bearer token against the
ACCESS_TOKEN_SECRET. -/
def authenticate (hdr : BearerHeader) (accessSecret : String) (now : Nat) : AuthOutcome :=
  match hdr with
  | .missing => .reject authHeaderMissingResponse
  | .malformed _ => .reject authHeaderMissingResponse
  | .emptyToken => .reject tokenMissingResponse
  | .bearer t =>
    match jwtVerify t accessSecret now with
    | none => .reject invalidTokenResponse
    | some c => .proceed c

/-- A bearer-protected route: the handler body runs only when authenticate
proceeds; otherwise the middleware response is returned and the store is
untouched. -/
def protectedRoute (handler : Claims → Store → Response × Store)
    (hdr : BearerHeader) (accessSecret : String) (now : Nat) (st : Store) :
    Response × Store :=
  match authenticate hdr accessSecret now with
  | .reject r => (r, st)
  | .proceed c => handler c st

/-- POST /auth/register (src/routes/auth.js).  `hash` abstracts
bcrypt.hash(password, 10).  Pre-checks the email, hashes the password,
inserts the row and returns its public projection. -/
def register (hash : String → String) (username email password : String) (now : Nat)
    (st : Store) : Response × Store :=
  match st.users.find? (fun u => u.email = email) with
  | some _ =>
    (⟨409, envelope [("success", .bool false), ("message", .str "User already exists"),
                     ("statusCode", jint 409)]⟩, st)
  | none =>
    let row : UserRow := ⟨nextUserId st, username, email, hash password, now, now⟩
    match insertUser row st with
    | .ok st2 =>
      (⟨201, envelope [("message", .str "User registered successfully"),
                       ("data", userPublicJson row), ("statusCode", jint 201)]⟩, st2)
    | .error e =>
      (⟨500, envelope [("success", .bool false), ("message", .str "Registration failed"),
                       ("errors", .str e.message), ("statusCode", jint 500)]⟩, st)

/-- The 401 envelope for a login with an unknown email or a wrong password. -/
def invalidCredentialsResponse : Response :=
  ⟨401, envelope [("success", .bool false), ("message", .str "Invalid email or password"),
                  ("statusCode", jint 401)]⟩

/-- The data object of a successful login: the user summary and both signed
tokens. -/
def loginData (u : UserRow) (accessToken refreshToken : Token) : JsonVal :=
  .obj [("user", .obj [("id", jint u.id), ("username", .str u.username),
                       ("email", .str u.email)]),
        ("accessToken", .tok accessToken), ("refreshToken", .tok refreshToken)]

/-- POST /auth/login (src/routes/auth.js).  `compare` abstracts
bcrypt.compare(plaintext, storedHash).  On success signs an access token
(claims id and email, access secret) and a refresh token (same claims,
refresh secret). -/
def login (compare : String → String → Bool) (accessSecret refreshSecret : String)
    (accessExpiry refreshExpiry : Nat) (email password : String) (now : Nat)
    (st : Store) : Response :=
  match st.users.find? (fun u => u.email = email) with
  | none => invalidCredentialsResponse
  | some user =>
    if compare password user.password then
      let accessToken := jwtSign ⟨user.id, some user.email⟩ accessSecret now accessExpiry
      let refreshToken := jwtSign ⟨user.id, some user.email⟩ refreshSecret now refreshExpiry
      ⟨200, envelope [("message", .str "Login successful"),
                      ("data", loginData user accessToken refreshToken),
                      ("statusCode", jint 200)]⟩
    else invalidCredentialsResponse

/-- The 401 envelope when the refresh-token body field is absent. -/
def refreshTokenRequiredResponse : Response :=
  ⟨401, envelope [("success", .bool false), ("message", .str "Refresh token is required"),
                  ("statusCode", jint 401)]⟩

/-- The 403 envelope when jwt.verify rejects the refresh token; the caught
error message is passed through as `errors`. -/
def invalidRefreshResponse : Response :=
  ⟨403, envelope [("success", .bool false), ("message", .str "Invalid refresh token"),
                  ("errors", .str "invalid signature or jwt expired"),
                  ("statusCode", jint 403)]⟩

/-- POST /auth/refresh-token (src/routes/auth.js).  Verifies the refresh
token against the refresh secret and mints a new access token whose payload
is only the id claim. -/
def refreshExchange (accessSecret refreshSecret : String) (accessExpiry : Nat)
    (refreshToken : Option Token) (now : Nat) : Response :=
  match refreshToken with
  | none => refreshTokenRequiredResponse
  | some tok =>
    match jwtVerify tok refreshSecret now with
    | none => invalidRefreshResponse
    | some payload =>
      let accessToken := jwtSign ⟨payload.id, none⟩ accessSecret now accessExpiry
      ⟨200, envelope [("message", .str "Access token refreshed successfully"),
                      ("data", .obj [("accessToken", .tok accessToken)]),
                      ("statusCode", jint 200)]⟩

/-- The 404 envelope for a users /me lookup that matched nothing. -/
def userNotFoundResponse : Response :=
  ⟨404, envelope [("success", .bool false), ("message", .str "User not found"),
                  ("statusCode", jint 404)]⟩

/-- GET /users/me (src/routes users file): select the public columns of the
authenticated user's row. -/
def getUserMe (uid : Nat) (st : Store) : Response :=
  match st.users.find? (fun u => u.id = uid) with
  | none => userNotFoundResponse
  | some u =>
    ⟨200, envelope [("success", .bool true),
                    ("message", .str "User details retrieved successfully"),
                    ("statusCode", jint 200), ("data", userPublicJson u)]⟩

/-- DELETE /users/me: look the row up first (404 when absent), then delete
it and echo the public projection of the deleted row. -/
def deleteUserMe (uid : Nat) (st : Store) : Response × Store :=
  match st.users.find? (fun u => u.id = uid) with
  | none => (userNotFoundResponse, st)
  | some u =>
    (⟨200, envelope [("success", .bool true), ("message", .str "User deleted successfully"),
                     ("statusCode", jint 200), ("data", userPublicJson u)]⟩,
     { st with users := st.users.filter (fun x => decide (x.id ≠ uid)) })

/-- PUT /users/me: reject blank fields, 404 when the row is absent, then
update username/email (the store may reject a duplicate email). -/
def updateUserMe (username email : String) (uid now : Nat) (st : Store) :
    Response × Store :=
  if username = "" ∨ email = "" then
    (⟨400, envelope [("success", .bool false),
                     ("message", .str "Username and email are required"),
                     ("statusCode", jint 400)]⟩, st)
  else
    match st.users.find? (fun u => u.id = uid) with
    | none => (userNotFoundResponse, st)
    | some u =>
      match updateUserRow uid username email now st with
      | .error e =>
        (⟨500, envelope [("success", .bool false),
                         ("message", .str "Failed to update user details"),
                         ("errors", .str e.message), ("statusCode", jint 500)]⟩, st)
      | .ok st2 =>
        let u2 := { u with username := username, email := email, updated_at := now }
        (⟨200, envelope [("success", .bool true),
                         ("message", .str "User details updated successfully"),
                         ("statusCode", jint 200), ("data", userPublicJson u2)]⟩, st2)

/-- Character-list version of String.startsWith. -/
def startsWithChars : List Char → List Char → Bool
  | [], _ => true
  | _ :: _, [] => false
  | p :: ps, c :: cs => p = c && startsWithChars ps cs

/-- Substring test on character lists (SQL like with wildcards on both
sides). -/
def containsSub : List Char → List Char → Bool
  | pat, [] => pat.isEmpty
  | pat, c :: rest => startsWithChars pat (c :: rest) || containsSub pat rest

/-- The authors matched by the list query: every author when the search term
is empty, otherwise a case-insensitive substring match on the name column
(WHERE name ILIKE the search term with wildcards). -/
def matchedAuthors (search : String) (st : Store) : List AuthorRow :=
  if search = "" then st.authors
  else st.authors.filter (fun a => containsSub search.toLower.data a.name.toLower.data)

/-- The ORDER BY created_at DESC comparison: a row sorts before another when
its creation time is at least as recent. -/
def newerFirst (a b : AuthorRow) : Prop := b.created_at ≤ a.created_at

instance : DecidableRel newerFirst := fun a b => Nat.decLe b.created_at a.created_at

instance : IsTotal AuthorRow newerFirst := ⟨fun a b => Nat.le_total b.created_at a.created_at⟩

instance : IsTrans AuthorRow newerFirst := ⟨fun _ _ _ h1 h2 => Nat.le_trans h2 h1⟩

/-- ORDER BY created_at DESC. -/
def orderByCreatedDesc (rows : List AuthorRow) : List AuthorRow :=
  rows.insertionSort newerFirst

/-- The pagination object of the authors list response; `pages` is the
unguarded JavaScript Math.ceil(total / limit). -/
def paginationJson (total page limit : Nat) : JsonVal :=
  .obj [("total", jint total), ("page", jint page), ("limit", jint limit),
        ("pages", .num (jsCeilDiv total limit))]

/-- GET /authors (src/routes/authors.js): count the matching rows, then
select a page ordered newest-first with LIMIT and OFFSET (page - 1) * limit. -/
def listAuthors (page limit : Nat) (search : String) (st : Store) : Response :=
  let matched := matchedAuthors search st
  let total := matched.length
  let rows := ((orderByCreatedDesc matched).drop ((page - 1) * limit)).take limit
  ⟨200, envelope [("success", .bool true),
                  ("message", .str "Authors retrieved successfully"),
                  ("statusCode", jint 200), ("data", .arr (rows.map authorJson)),
                  ("pagination", paginationJson total page limit)]⟩

/-- The 404 envelope for an author lookup that matched nothing. -/
def authorNotFoundResponse : Response :=
  ⟨404, envelope [("success", .bool false), ("message", .str "Author not found"),
                  ("statusCode", jint 404)]⟩

/-- GET /authors/:id. -/
def getAuthor (id : Nat) (st : Store) : Response :=
  match st.authors.find? (fun a => a.id = id) with
  | none => authorNotFoundResponse
  | some a =>
    ⟨200, envelope [("success", .bool true),
                    ("message", .str "Author retrieved successfully"),
                    ("statusCode", jint 200), ("data", authorJson a)]⟩

/-- POST /authors: inserts without any duplicate pre-check; a store
rejection (unique email violated) lands in the catch branch as a 500. -/
def createAuthor (name email : String) (bio : Option String) (now : Nat) (st : Store) :
    Response × Store :=
  let row : AuthorRow := ⟨nextAuthorId st, name, email, bio, now, now⟩
  match insertAuthor row st with
  | .ok st2 =>
    (⟨201, envelope [("success", .bool true),
                     ("message", .str "Author created successfully"),
                     ("statusCode", jint 201), ("data", authorJson row)]⟩, st2)
  | .error e =>
    (⟨500, envelope [("success", .bool false),
                     ("message", .str "Failed to create author"),
                     ("errors", .str e.message), ("statusCode", jint 500)]⟩, st)

/-- PUT /authors/:id: 404 when the row is absent, then update; a store
rejection (unique email violated) lands in the catch branch as a 500. -/
def updateAuthor (id : Nat) (name email : String) (bio : Option String) (now : Nat)
    (st : Store) : Response × Store :=
  match st.authors.find? (fun a => a.id = id) with
  | none => (authorNotFoundResponse, st)
  | some a =>
    match updateAuthorRow id name email bio now st with
    | .error e =>
      (⟨500, envelope [("success", .bool false),
                       ("message", .str "Failed to update author"),
                       ("errors", .str e.message), ("statusCode", jint 500)]⟩, st)
    | .ok st2 =>
      let a2 := { a with name := name, email := email, bio := bio, updated_at := now }
      (⟨200, envelope [("success", .bool true),
                       ("message", .str "Author updated successfully"),
                       ("statusCode", jint 200), ("data", authorJson a2)]⟩, st2)

/-- DELETE /authors/:id: DELETE WHERE id, 404 when the deleted count is
zero. -/
def deleteAuthor (id : Nat) (st : Store) : Response × Store :=
  let remaining := st.authors.filter (fun a => decide (a.id ≠ id))
  if st.authors.length - remaining.length = 0 then (authorNotFoundResponse, st)
  else
    (⟨200, envelope [("success", .bool true),
                     ("message", .str "Author deleted successfully"),
                     ("statusCode", jint 200)]⟩, { st with authors := remaining })

/-- The 400 envelope for a batch delete whose ids field is not a non-empty
array. -/
def invalidIdsResponse : Response :=
  ⟨400, envelope [("success", .bool false),
                  ("message", .str "Invalid or empty IDs array"),
                  ("statusCode", jint 400)]⟩

/-- DELETE /authors (batch): the ids body field is none when it is not an
array; the guard answers 400 before the store is consulted, then DELETE
WHERE id IN ids with a 404 when nothing matched. -/
def batchDeleteAuthors (ids : Option (List Nat)) (st : Store) : Response × Store :=
  match ids with
  | none => (invalidIdsResponse, st)
  | some l =>
    if l.isEmpty then (invalidIdsResponse, st)
    else
      let remaining := st.authors.filter (fun a => decide (¬ l.contains a.id))
      let deletedCount := st.authors.length - remaining.length
      if deletedCount = 0 then
        (⟨404, envelope [("success", .bool false),
                         ("message", .str "No authors found with the provided IDs"),
                         ("statusCode", jint 404)]⟩, st)
      else
        (⟨200, envelope [("success", .bool true),
                         ("message", .str (toString deletedCount ++ " authors deleted successfully")),
                         ("statusCode", jint 200)]⟩, { st with authors := remaining })

/-- A sample author row: name, email and creation time derived from its id. -/
def sampleAuthor (n : Nat) : AuthorRow :=
  ⟨n, "Author " ++ toString n, "author" ++ toString n ++ "@example.com", none, n, n⟩

/-- Twenty-five authors with ids and creation times 1..25. -/
def sampleAuthors : List AuthorRow :=
  (List.range 25).map (fun i => sampleAuthor (i + 1))

/-- A sample registered user. -/
def sampleUser : UserRow := ⟨1, "bob", "bob@example.com", "pw-hashed", 5, 5⟩

/-- A sample store holding the sample user and the twenty-five sample
authors. -/
def sampleStore : Store := ⟨[sampleUser], sampleAuthors⟩

/-- A bcrypt.compare stand-in for witnesses: plaintext matches exactly one
stored hash string. -/
def cmpEq (plain hash : String) : Bool := plain ++ "-hashed" = hash

/-- A handler constant in its inputs, used to show that middleware rejection
never reaches the handler body. -/
def constHandler : Claims → Store → Response × Store :=
  fun _ st => (userNotFoundResponse, st)

/-- C6: a batch delete whose ids field is not an array, or is an empty
array, is answered with the 400 envelope while the store (consulted only
after this guard) is returned unchanged, for every store. -/
theorem batchDelete_invalid_ids_rejected (ids : Option (List Nat)) (st : Store)
    (h : ids = none ∨ ids = some []) :
    batchDeleteAuthors ids st = (invalidIdsResponse, st) ∧
    invalidIdsResponse.status = 400 ∧ isEnvelope invalidIdsResponse.body = true := by
  rcases h with h | h <;> subst h <;> exact ⟨rfl, rfl, rfl⟩

/-- Witness for C6 at ids = some [] over the sample store. -/
theorem batchDelete_invalid_ids_rejected_witness :
    batchDeleteAuthors (some []) sampleStore = (invalidIdsResponse, sampleStore) :=
  (batchDelete_invalid_ids_rejected (some []) sampleStore (Or.inr rfl)).1

/-- C7: deleting the authenticated user when no stored user has that id
answers the 404 envelope and returns the store unchanged. -/
theorem deleteUser_unknown_id_not_found (uid : Nat) (st : Store)
    (h : st.users.find? (fun u => u.id = uid) = none) :
    deleteUserMe uid st = (userNotFoundResponse, st) ∧
    userNotFoundResponse.status = 404 ∧ isEnvelope userNotFoundResponse.body = true := by
  refine ⟨?_, rfl, rfl⟩
  unfold deleteUserMe
  rw [h]

/-- Witness for C7 at uid 99 over the sample store. -/
theorem deleteUser_unknown_id_not_found_witness :
    deleteUserMe 99 sampleStore = (userNotFoundResponse, sampleStore) :=
  (deleteUser_unknown_id_not_found 99 sampleStore (by decide)).1

/-- C4: when the refresh secret differs from the access secret, a bearer
token signed under the refresh secret, or under any secret other than the
access secret, or already expired, is rejected with the 403 middleware
response on every bearer-protected route, and the handler body never runs:
the result does not depend on the handler and the store is unchanged. -/
theorem wrong_secret_or_expired_token_rejected (accessSecret refreshSecret : String)
    (hsec : refreshSecret ≠ accessSecret) (tok : Token) (now : Nat)
    (hbad : tok.secret = refreshSecret ∨ tok.secret ≠ accessSecret ∨ tok.exp ≤ now)
    (handler : Claims → Store → Response × Store) (st : Store) :
    protectedRoute handler (.bearer tok) accessSecret now st = (invalidTokenResponse, st) := by
  have hfail : jwtVerify tok accessSecret now = none := by
    unfold jwtVerify
    rw [if_neg]
    rintro ⟨h1, h2⟩
    rcases hbad with h | h | h
    · exact hsec (h.symm.trans h1)
    · exact h h1
    · omega
  simp [protectedRoute, authenticate, hfail]

/-- Witness for C4: a token signed under the refresh secret is rejected and
the handler is not run. -/
theorem wrong_secret_or_expired_token_rejected_witness :
    protectedRoute constHandler
      (.bearer (jwtSign ⟨1, none⟩ "refresh-secret" 0 1000)) "access-secret" 10 sampleStore =
      (invalidTokenResponse, sampleStore) :=
  wrong_secret_or_expired_token_rejected "access-secret" "refresh-secret" (by decide)
    (jwtSign ⟨1, none⟩ "refresh-secret" 0 1000) 10 (Or.inl rfl) constHandler sampleStore

/-- C9: for a list request with limit 0 the pagination object is still
emitted, its pages field is Math.ceil(total / 0), and that value is not a
finite number (Infinity when any author matches, NaN when none does). -/
theorem listAuthors_limit_zero_pages_not_finite (page : Nat) (search : String) (st : Store) :
    ((listAuthors page 0 search st).body.lookup "pagination").bind
        (fun v => v.lookup "pages") =
      some (.num (jsCeilDiv (matchedAuthors search st).length 0)) ∧
    (jsCeilDiv (matchedAuthors search st).length 0).isFinite = false := by
  constructor
  · rfl
  · unfold jsCeilDiv
    by_cases h : (matchedAuthors search st).length = 0 <;>
      simp [h, JSNum.isFinite]

/-- C10: the access token minted by the login handler carries the id and the
email claims, while the access token minted by the refresh exchange carries
only the id claim; the two mint paths therefore produce access tokens with
different claim sets. -/
theorem refresh_minted_claims_differ_from_login (compare : String → String → Bool)
    (accessSecret refreshSecret : String) (accessExpiry refreshExpiry nowL nowR : Nat)
    (email password : String) (st : Store) (u : UserRow) (tok : Token) (c : Claims)
    (hfind : st.users.find? (fun x => x.email = email) = some u)
    (hcmp : compare password u.password = true)
    (hver : jwtVerify tok refreshSecret nowR = some c) :
    ((login compare accessSecret refreshSecret accessExpiry refreshExpiry
        email password nowL st).body.lookup "data").bind (fun d => d.lookup "accessToken") =
      some (.tok (jwtSign ⟨u.id, some u.email⟩ accessSecret nowL accessExpiry)) ∧
    ((refreshExchange accessSecret refreshSecret accessExpiry
        (some tok) nowR).body.lookup "data").bind (fun d => d.lookup "accessToken") =
      some (.tok (jwtSign ⟨c.id, none⟩ accessSecret nowR accessExpiry)) ∧
    (jwtSign ⟨c.id, none⟩ accessSecret nowR accessExpiry).claims ≠
      (jwtSign ⟨u.id, some u.email⟩ accessSecret nowL accessExpiry).claims := by
  refine ⟨?_, ?_, ?_⟩
  · simp only [login, hfind, hcmp]
    rfl
  · simp only [refreshExchange, hver]
    rfl
  · simp [jwtSign]

/-- Witness for C10: a concrete user logs in and exchanges the resulting
refresh token; the two access tokens carry different claim sets. -/
theorem refresh_minted_claims_differ_from_login_witness :
    ((login cmpEq "as" "rs" 60 600 "bob@example.com" "pw"
        7 sampleStore).body.lookup "data").bind (fun d => d.lookup "accessToken") =
      some (.tok (jwtSign ⟨1, some "bob@example.com"⟩ "as" 7 60)) ∧
    ((refreshExchange "as" "rs" 60
        (some (jwtSign ⟨1, some "bob@example.com"⟩ "rs" 7 600)) 20).body.lookup "data").bind
        (fun d => d.lookup "accessToken") =
      some (.tok (jwtSign ⟨1, none⟩ "as" 20 60)) ∧
    (jwtSign ⟨1, none⟩ "as" 20 60).claims ≠
      (jwtSign ⟨1, some "bob@example.com"⟩ "as" 7 60).claims :=
  refresh_minted_claims_differ_from_login cmpEq "as" "rs" 60 600 7 20
    "bob@example.com" "pw" sampleStore sampleUser
    (jwtSign ⟨1, some "bob@example.com"⟩ "rs" 7 600) ⟨1, some "bob@example.com"⟩
    (by decide) (by decide) (by decide)

/-- C5: a login whose email matches a stored user and whose password passes
the bcrypt comparison against that user's stored hash is answered 200 with
success true and a data object carrying both an access and a refresh token;
any other combination (unknown email, or a failing comparison) is answered
with the 401 invalid-credentials envelope. -/
theorem login_tokens_or_authentication_failure (compare : String → String → Bool)
    (accessSecret refreshSecret : String) (accessExpiry refreshExpiry : Nat)
    (email password : String) (now : Nat) (st : Store) :
    ((∃ u, st.users.find? (fun x => x.email = email) = some u ∧
        compare password u.password = true) →
      (login compare accessSecret refreshSecret accessExpiry refreshExpiry
          email password now st).status = 200 ∧
      (login compare accessSecret refreshSecret accessExpiry refreshExpiry
          email password now st).body.lookup "success" = some (.bool true) ∧
      (∃ t1, ((login compare accessSecret refreshSecret accessExpiry refreshExpiry
          email password now st).body.lookup "data").bind
            (fun d => d.lookup "accessToken") = some (.tok t1)) ∧
      (∃ t2, ((login compare accessSecret refreshSecret accessExpiry refreshExpiry
          email password now st).body.lookup "data").bind
            (fun d => d.lookup "refreshToken") = some (.tok t2))) ∧
    ((∀ u, st.users.find? (fun x => x.email = email) = some u →
        compare password u.password = false) →
      login compare accessSecret refreshSecret accessExpiry refreshExpiry
          email password now st = invalidCredentialsResponse ∧
      invalidCredentialsResponse.status = 401) := by
  constructor
  · rintro ⟨u, hfind, hcmp⟩
    simp only [login, hfind, hcmp]
    exact ⟨rfl, rfl, ⟨_, rfl⟩, ⟨_, rfl⟩⟩
  · intro hall
    refine ⟨?_, rfl⟩
    cases hf : st.users.find? (fun x => x.email = email) with
    | none => simp [login, hf]
    | some u => simp [login, hf, hall u hf]

/-- Witness for C5: the sample user logs in with the right password (200,
both tokens) and with a wrong password (401 envelope). -/
theorem login_tokens_or_authentication_failure_witness :
    ((login cmpEq "as" "rs" 60 600 "bob@example.com" "pw"
        7 sampleStore).status = 200 ∧
      (login cmpEq "as" "rs" 60 600 "bob@example.com" "pw"
        7 sampleStore).body.lookup "success" = some (.bool true) ∧
      (∃ t1, ((login cmpEq "as" "rs" 60 600 "bob@example.com" "pw"
        7 sampleStore).body.lookup "data").bind
          (fun d => d.lookup "accessToken") = some (.tok t1)) ∧
      (∃ t2, ((login cmpEq "as" "rs" 60 600 "bob@example.com" "pw"
        7 sampleStore).body.lookup "data").bind
          (fun d => d.lookup "refreshToken") = some (.tok t2))) ∧
    (login cmpEq "as" "rs" 60 600 "bob@example.com" "wrong-password" 7 sampleStore =
        invalidCredentialsResponse ∧
      invalidCredentialsResponse.status = 401) :=
  ⟨(login_tokens_or_authentication_failure cmpEq "as" "rs" 60 600
      "bob@example.com" "pw" 7 sampleStore).1
      ⟨sampleUser, by decide, by decide⟩,
   (login_tokens_or_authentication_failure cmpEq "as" "rs" 60 600
      "bob@example.com" "wrong-password" 7 sampleStore).2
      (fun u h => by
        have h2 : some sampleUser = some u := h
        cases h2
        decide)⟩

/-- A store already holding an author with the email about to be reused. -/
def dupStore : Store := ⟨[], [⟨1, "Ann", "ann@example.com", none, 1, 1⟩, sampleAuthor 2]⟩

/-- Counterexample to C2 as stated: creating a second author with an
already-stored email is answered 500, not with a 409-class conflict. -/
theorem createAuthor_duplicate_email_counterexample :
    (createAuthor "Ben" "ann@example.com" none 3 dupStore).1.status = 500 ∧
    ¬ (createAuthor "Ben" "ann@example.com" none 3 dupStore).1.status = 409 := by
  exact ⟨rfl, by decide⟩

/-- C2 amended: an author create whose email is already stored, and an
author update that takes the email of a different stored author, are
rejected by the store's unique constraint and surface through the catch
branch as a 500 envelope carrying the unique-violation message; the store
is unchanged, so exactly one author row with that email remains. -/
theorem author_duplicate_email_is_500 (st : Store) (name email : String)
    (bio : Option String) (now id : Nat) (a : AuthorRow)
    (hdup : st.authors.any (fun x => x.email = email) = true)
    (hone : (st.authors.filter (fun x => x.email = email)).length = 1)
    (hfind : st.authors.find? (fun x => x.id = id) = some a)
    (hother : st.authors.any (fun x => decide (x.id ≠ id) && decide (x.email = email)) = true) :
    ((createAuthor name email bio now st).1.status = 500 ∧
     (createAuthor name email bio now st).1.body.lookup "errors" =
       some (.str authorsUniqueViolation.message) ∧
     (createAuthor name email bio now st).2 = st ∧
     ((createAuthor name email bio now st).2.authors.filter
         (fun x => x.email = email)).length = 1) ∧
    ((updateAuthor id name email bio now st).1.status = 500 ∧
     (updateAuthor id name email bio now st).2 = st) := by
  have hins : insertAuthor ⟨nextAuthorId st, name, email, bio, now, now⟩ st =
      .error authorsUniqueViolation := by
    unfold insertAuthor
    simp [hdup]
  have hupd : updateAuthorRow id name email bio now st = .error authorsUniqueViolation := by
    unfold updateAuthorRow
    simp only [hother]
    rfl
  refine ⟨⟨?_, ?_, ?_, ?_⟩, ⟨?_, ?_⟩⟩ <;>
    simp only [createAuthor, updateAuthor, hins, hfind, hupd] <;>
    first
      | rfl
      | exact hone

/-- Witness for C2 amended over a concrete two-author store. -/
theorem author_duplicate_email_is_500_witness :
    ((createAuthor "Ben" "ann@example.com" none 3 dupStore).1.status = 500 ∧
     (createAuthor "Ben" "ann@example.com" none 3 dupStore).1.body.lookup "errors" =
       some (.str authorsUniqueViolation.message) ∧
     (createAuthor "Ben" "ann@example.com" none 3 dupStore).2 = dupStore ∧
     ((createAuthor "Ben" "ann@example.com" none 3 dupStore).2.authors.filter
         (fun x => x.email = "ann@example.com")).length = 1) ∧
    ((updateAuthor 2 "Ben" "ann@example.com" none 3 dupStore).1.status = 500 ∧
     (updateAuthor 2 "Ben" "ann@example.com" none 3 dupStore).2 = dupStore) :=
  author_duplicate_email_is_500 dupStore "Ben" "ann@example.com" none 3 2 (sampleAuthor 2)
    (by decide) (by decide) (by decide) (by decide)

/-- Counterexample to C1 as stated: the responses of the validation gate and
of the credential verifier do not have the §4.3 envelope shape (the first
carries a bare status/message/errors object, the others a bare error
object). -/
theorem middleware_response_not_envelope_counterexample :
    isEnvelope (validateFailResponse [⟨"Author name is required", "name"⟩]).body = false ∧
    isEnvelope authHeaderMissingResponse.body = false ∧
    isEnvelope tokenMissingResponse.body = false ∧
    isEnvelope invalidTokenResponse.body = false :=
  ⟨rfl, rfl, rfl, rfl⟩

/-- C1 amended: every response produced by a route handler body — success or
failure, across all twelve endpoints — has the fixed §4.3 envelope shape,
but the two middleware short-circuits do not: the validation gate emits a
bare status/message/errors object and the credential verifier emits a bare
error object. -/
theorem handler_responses_are_envelopes_middleware_is_not :
    (∀ hash username email password now st,
      isEnvelope (register hash username email password now st).1.body = true) ∧
    (∀ compare accessSecret refreshSecret accessExpiry refreshExpiry email password now st,
      isEnvelope (login compare accessSecret refreshSecret accessExpiry refreshExpiry
        email password now st).body = true) ∧
    (∀ accessSecret refreshSecret accessExpiry refreshToken now,
      isEnvelope (refreshExchange accessSecret refreshSecret accessExpiry
        refreshToken now).body = true) ∧
    (∀ uid st, isEnvelope (getUserMe uid st).body = true) ∧
    (∀ username email uid now st,
      isEnvelope (updateUserMe username email uid now st).1.body = true) ∧
    (∀ uid st, isEnvelope (deleteUserMe uid st).1.body = true) ∧
    (∀ page limit search st, isEnvelope (listAuthors page limit search st).body = true) ∧
    (∀ id st, isEnvelope (getAuthor id st).body = true) ∧
    (∀ name email bio now st,
      isEnvelope (createAuthor name email bio now st).1.body = true) ∧
    (∀ id name email bio now st,
      isEnvelope (updateAuthor id name email bio now st).1.body = true) ∧
    (∀ id st, isEnvelope (deleteAuthor id st).1.body = true) ∧
    (∀ ids st, isEnvelope (batchDeleteAuthors ids st).1.body = true) ∧
    (∀ errs, isEnvelope (validateFailResponse errs).body = false) ∧
    isEnvelope authHeaderMissingResponse.body = false ∧
    isEnvelope tokenMissingResponse.body = false ∧
    isEnvelope invalidTokenResponse.body = false := by
  refine ⟨?_, ?_, ?_, ?_, ?_, ?_, ?_, ?_, ?_, ?_, ?_, ?_, ?_, rfl, rfl, rfl⟩
  · intro hash username email password now st
    simp only [register]
    split
    · rfl
    · split <;> rfl
  · intro compare accessSecret refreshSecret accessExpiry refreshExpiry email password now st
    simp only [login]
    split
    · rfl
    · split <;> rfl
  · intro accessSecret refreshSecret accessExpiry refreshToken now
    simp only [refreshExchange]
    split
    · rfl
    · split <;> rfl
  · intro uid st
    simp only [getUserMe]
    split <;> rfl
  · intro username email uid now st
    simp only [updateUserMe]
    split
    · rfl
    · split
      · rfl
      · split <;> rfl
  · intro uid st
    simp only [deleteUserMe]
    split <;> rfl
  · intro page limit search st
    rfl
  · intro id st
    simp only [getAuthor]
    split <;> rfl
  · intro name email bio now st
    simp only [createAuthor]
    split <;> rfl
  · intro id name email bio now st
    simp only [updateAuthor]
    split
    · rfl
    · split <;> rfl
  · intro id st
    simp only [deleteAuthor]
    split <;> rfl
  · intro ids st
    simp only [batchDeleteAuthors]
    split
    · rfl
    · split
      · rfl
      · split <;> rfl
  · intro errs
    rfl

/-- Appending field lists is conjunctive for the password-free check. -/
theorem pwKeyFreeObj_append (fs gs : List (String × JsonVal)) :
    pwKeyFreeObj (fs ++ gs) = (pwKeyFreeObj fs && pwKeyFreeObj gs) := by
  induction fs with
  | nil => simp [pwKeyFreeObj]
  | cons p t ih =>
    obtain ⟨k, v⟩ := p
    simp [pwKeyFreeObj, ih, Bool.and_assoc]

/-- Overriding an existing key with a password-free value keeps the field
list password-free. -/
theorem pwKeyFreeObj_map_override (k : String) (v : JsonVal)
    (fs : List (String × JsonVal)) (hfs : pwKeyFreeObj fs = true)
    (hk : k ≠ "password") (hv : pwKeyFree v = true) :
    pwKeyFreeObj (fs.map (fun p => if p.1 = k then (k, v) else p)) = true := by
  induction fs with
  | nil => rfl
  | cons p t ih =>
    obtain ⟨k1, v1⟩ := p
    simp only [pwKeyFreeObj, Bool.and_eq_true, decide_eq_true_eq] at hfs
    obtain ⟨⟨hk1, hv1⟩, ht⟩ := hfs
    simp only [List.map_cons]
    by_cases h : k1 = k
    · rw [show (if (k1, v1).1 = k then (k, v) else (k1, v1)) = (k, v) from if_pos h]
      simp only [pwKeyFreeObj, Bool.and_eq_true, decide_eq_true_eq]
      exact ⟨⟨hk, hv⟩, ih ht⟩
    · rw [show (if (k1, v1).1 = k then (k, v) else (k1, v1)) = (k1, v1) from if_neg h]
      simp only [pwKeyFreeObj, Bool.and_eq_true, decide_eq_true_eq]
      exact ⟨⟨hk1, hv1⟩, ih ht⟩

/-- setField with a non-password key and a password-free value keeps the
field list password-free. -/
theorem pwKeyFreeObj_setField (fs : List (String × JsonVal)) (k : String) (v : JsonVal)
    (hfs : pwKeyFreeObj fs = true) (hk : k ≠ "password") (hv : pwKeyFree v = true) :
    pwKeyFreeObj (setField fs k v) = true := by
  unfold setField
  split
  · exact pwKeyFreeObj_map_override k v fs hfs hk hv
  · rw [pwKeyFreeObj_append]
    simp [hfs, pwKeyFreeObj, hk, hv]

/-- Folding password-free overrides into a password-free field list keeps it
password-free. -/
theorem pwKeyFreeObj_foldl_setField (ovs : List (String × JsonVal)) :
    ∀ fs, pwKeyFreeObj ovs = true → pwKeyFreeObj fs = true →
      pwKeyFreeObj (ovs.foldl (fun a kv => setField a kv.1 kv.2) fs) = true := by
  induction ovs with
  | nil =>
    intro fs _ hfs
    simpa using hfs
  | cons p t ih =>
    intro fs hov hfs
    obtain ⟨k, v⟩ := p
    simp only [pwKeyFreeObj, Bool.and_eq_true, decide_eq_true_eq] at hov
    obtain ⟨⟨hk, hv⟩, ht⟩ := hov
    simpa [List.foldl] using ih (setField fs k v) ht (pwKeyFreeObj_setField fs k v hfs hk hv)

/-- An envelope built from password-free overrides is password-free. -/
theorem pwKeyFree_envelope (ovs : List (String × JsonVal))
    (h : pwKeyFreeObj ovs = true) : pwKeyFree (envelope ovs) = true := by
  have h2 : pwKeyFreeObj (ovs.foldl (fun a kv => setField a kv.1 kv.2) responseFormat) = true :=
    pwKeyFreeObj_foldl_setField ovs responseFormat h rfl
  simpa [envelope, pwKeyFree] using h2

/-- A prefix of a password-free array is password-free. -/
theorem pwKeyFreeArr_take (n : Nat) (l : List JsonVal) (h : pwKeyFreeArr l = true) :
    pwKeyFreeArr (l.take n) = true := by
  induction l generalizing n with
  | nil => cases n <;> simp [List.take, pwKeyFreeArr]
  | cons x xs ih =>
    cases n with
    | zero => rfl
    | succ m =>
      simp only [List.take, pwKeyFreeArr, Bool.and_eq_true] at h ⊢
      exact ⟨h.1, ih m h.2⟩

/-- A suffix of a password-free array is password-free. -/
theorem pwKeyFreeArr_drop (n : Nat) (l : List JsonVal) (h : pwKeyFreeArr l = true) :
    pwKeyFreeArr (l.drop n) = true := by
  induction l generalizing n with
  | nil => cases n <;> simp [List.drop, pwKeyFreeArr]
  | cons x xs ih =>
    cases n with
    | zero => exact h
    | succ m =>
      simp only [pwKeyFreeArr, Bool.and_eq_true] at h
      exact ih m h.2

/-- Serialized author rows are password-free. -/
theorem pwKeyFreeArr_map_authorJson (l : List AuthorRow) :
    pwKeyFreeArr (l.map authorJson) = true := by
  induction l with
  | nil => rfl
  | cons a t ih =>
    obtain ⟨i, n, e, b, ca, ua⟩ := a
    cases b <;> simp only [List.map, pwKeyFreeArr, ih, Bool.and_true] <;> rfl

/-- Serialized express-validator errors are password-free. -/
theorem pwKeyFreeArr_map_validationErrorJson (l : List ValidationError) :
    pwKeyFreeArr (l.map validationErrorJson) = true := by
  induction l with
  | nil => rfl
  | cons e t ih =>
    simp only [List.map, pwKeyFreeArr, ih, Bool.and_true]
    rfl

/-- C8: no response of any endpoint — registration, login, refresh, the
users /me handlers, every author operation, and the middleware
short-circuits — carries a "password" field anywhere in its body, so
neither the plaintext nor the stored hash is ever serialized. -/
theorem no_response_carries_password_field :
    (∀ hash username email password now st,
      pwKeyFree (register hash username email password now st).1.body = true) ∧
    (∀ compare accessSecret refreshSecret accessExpiry refreshExpiry email password now st,
      pwKeyFree (login compare accessSecret refreshSecret accessExpiry refreshExpiry
        email password now st).body = true) ∧
    (∀ accessSecret refreshSecret accessExpiry refreshToken now,
      pwKeyFree (refreshExchange accessSecret refreshSecret accessExpiry
        refreshToken now).body = true) ∧
    (∀ uid st, pwKeyFree (getUserMe uid st).body = true) ∧
    (∀ username email uid now st,
      pwKeyFree (updateUserMe username email uid now st).1.body = true) ∧
    (∀ uid st, pwKeyFree (deleteUserMe uid st).1.body = true) ∧
    (∀ page limit search st, pwKeyFree (listAuthors page limit search st).body = true) ∧
    (∀ id st, pwKeyFree (getAuthor id st).body = true) ∧
    (∀ name email bio now st,
      pwKeyFree (createAuthor name email bio now st).1.body = true) ∧
    (∀ id name email bio now st,
      pwKeyFree (updateAuthor id name email bio now st).1.body = true) ∧
    (∀ id st, pwKeyFree (deleteAuthor id st).1.body = true) ∧
    (∀ ids st, pwKeyFree (batchDeleteAuthors ids st).1.body = true) ∧
    (∀ errs, pwKeyFree (validateFailResponse errs).body = true) ∧
    pwKeyFree authHeaderMissingResponse.body = true ∧
    pwKeyFree tokenMissingResponse.body = true ∧
    pwKeyFree invalidTokenResponse.body = true := by
  refine ⟨?_, ?_, ?_, ?_, ?_, ?_, ?_, ?_, ?_, ?_, ?_, ?_, ?_, rfl, rfl, rfl⟩
  · intro hash username email password now st
    simp only [register]
    split
    · rfl
    · split <;> rfl
  · intro compare accessSecret refreshSecret accessExpiry refreshExpiry email password now st
    simp only [login]
    split
    · rfl
    · split <;> rfl
  · intro accessSecret refreshSecret accessExpiry refreshToken now
    simp only [refreshExchange]
    split
    · rfl
    · split <;> rfl
  · intro uid st
    simp only [getUserMe]
    split <;> rfl
  · intro username email uid now st
    simp only [updateUserMe]
    split
    · rfl
    · split
      · rfl
      · split <;> rfl
  · intro uid st
    simp only [deleteUserMe]
    split <;> rfl
  · intro page limit search st
    show pwKeyFree (envelope [("success", .bool true),
      ("message", .str "Authors retrieved successfully"), ("statusCode", jint 200),
      ("data", .arr ((((orderByCreatedDesc (matchedAuthors search st)).drop
        ((page - 1) * limit)).take limit).map authorJson)),
      ("pagination", paginationJson (matchedAuthors search st).length page limit)]) = true
    exact pwKeyFree_envelope _
      (by simp [pwKeyFreeObj, pwKeyFree, paginationJson, jint,
            pwKeyFreeArr_take, pwKeyFreeArr_drop, pwKeyFreeArr_map_authorJson])
  · intro id st
    simp only [getAuthor]
    split
    · rfl
    · rename_i a _
      obtain ⟨i, n, e, b, ca, ua⟩ := a
      cases b <;> rfl
  · intro name email bio now st
    simp only [createAuthor]
    split <;> cases bio <;> rfl
  · intro id name email bio now st
    simp only [updateAuthor]
    split
    · rfl
    · split
      · rfl
      · cases bio <;> rfl
  · intro id st
    simp only [deleteAuthor]
    split <;> rfl
  · intro ids st
    simp only [batchDeleteAuthors]
    split
    · rfl
    · split
      · rfl
      · split <;> rfl
  · intro errs
    simp [validateFailResponse, pwKeyFree, pwKeyFreeObj, pwKeyFreeArr_map_validationErrorJson]

/-- C3: the authors list response carries pagination total n (the number of
matching authors), the requested page and limit, and pages equal to the
ceiling of n / limit; its data array is exactly the slice of the matching
authors ordered by descending creation time from rank (page-1)*limit+1 to
rank page*limit: element i of the slice is element (page-1)*limit+i of the
ordered list, which is a sorted (newest-first) permutation of the matching
authors. -/
theorem listAuthors_pagination_and_page_slice (page limit : Nat) (search : String)
    (st : Store) (hlimit : 0 < limit) :
    (listAuthors page limit search st).body.lookup "pagination" =
      some (.obj [("total", jint (matchedAuthors search st).length), ("page", jint page),
                  ("limit", jint limit),
                  ("pages", .num (.fin (Int.ofNat
                    (((matchedAuthors search st).length + limit - 1) / limit))))]) ∧
    (listAuthors page limit search st).body.lookup "data" =
      some (.arr ((((orderByCreatedDesc (matchedAuthors search st)).drop
        ((page - 1) * limit)).take limit).map authorJson)) ∧
    (∀ i, i < limit →
      (((orderByCreatedDesc (matchedAuthors search st)).drop
        ((page - 1) * limit)).take limit)[i]? =
        (orderByCreatedDesc (matchedAuthors search st))[(page - 1) * limit + i]?) ∧
    List.Sorted newerFirst (orderByCreatedDesc (matchedAuthors search st)) ∧
    (orderByCreatedDesc (matchedAuthors search st)).Perm (matchedAuthors search st) := by
  refine ⟨?_, rfl, ?_, ?_, ?_⟩
  · have h1 : (listAuthors page limit search st).body.lookup "pagination" =
        some (paginationJson (matchedAuthors search st).length page limit) := rfl
    rw [h1]
    unfold paginationJson jsCeilDiv
    rw [if_neg (Nat.pos_iff_ne_zero.mp hlimit)]
  · intro i hi
    rw [List.getElem?_take, if_pos hi, List.getElem?_drop]
  · exact List.sorted_insertionSort newerFirst (matchedAuthors search st)
  · exact List.perm_insertionSort newerFirst (matchedAuthors search st)

/-- Witness for C3 at page 2, limit 10 over the 25 sample authors: total 25,
pages 3, and the data slice is the authors with creation ranks 11 to 20,
namely ids 15 down to 6. -/
theorem listAuthors_pagination_and_page_slice_witness :
    (listAuthors 2 10 "" sampleStore).body.lookup "pagination" =
      some (.obj [("total", jint 25), ("page", jint 2), ("limit", jint 10),
                  ("pages", .num (.fin 3))]) ∧
    (listAuthors 2 10 "" sampleStore).body.lookup "data" =
      some (.arr (((List.range 10).map (fun i => sampleAuthor (15 - i))).map authorJson)) :=
  ⟨(listAuthors_pagination_and_page_slice 2 10 "" sampleStore (by decide)).1,
   (listAuthors_pagination_and_page_slice 2 10 "" sampleStore (by decide)).2.1⟩
